import Mathlib

/-!
Verification of the grocery-list-maker component against its specification.

The repository contains two near-identical React components:
* `src/src/App.tsx` — embedded below under the namespace `AppTsx`;
* `src/unnamed/part_000` — embedded below under the namespace `Part000`.

State handlers that are textually identical in both files (the three
per-entry update handlers, `getSelectedItems`, `getSelectedCount`,
`showToast`, `handleSubmit`, `formatDate`) are defined once at top level.
The browser `Date`/locale calls inside `formatDate` are modelled by passing
the current day / month index / year explicitly, with the standard `en-US`
short month table.
-/

/-- A catalog item of the configuration document: numeric id and display name
(`items: Array<[id: number; name: string]>` in `GroceryConfig`). -/
structure ConfigItem where
  id : Int
  name : String
deriving DecidableEq

/-- The `user` block of the configuration document. -/
structure GroceryUser where
  name : String
  mobile : String
  shopkeeperMobile : String
deriving DecidableEq

/-- The grocery configuration document (`GroceryConfig` in both files). -/
structure GroceryConfig where
  items : List ConfigItem
  units : List String
  user : GroceryUser
deriving DecidableEq

/-- A per-session list entry (`GroceryItem` in both files): catalog identity
plus mutable unit, quantity and selection flag. -/
structure GroceryItem where
  id : Int
  name : String
  unit : String
  quantity : String
  selected : Bool
deriving DecidableEq

/-- Placeholder entry used as the default value of positional lookups. -/
def noItem : GroceryItem :=
  { id := 0, name := "", unit := "", quantity := "", selected := false }

/-- Placeholder catalog item used as the default value of positional lookups. -/
def noCfgItem : ConfigItem := { id := 0, name := "" }

/-- Embedding of `handleCheckboxChange` (identical in both files): toggle the
`selected` flag of every entry whose id matches. -/
def handleCheckboxChange (id : Int) (items : List GroceryItem) : List GroceryItem :=
  items.map fun item => if item.id = id then { item with selected := !item.selected } else item

/-- Embedding of `handleUnitChange` (identical in both files). -/
def handleUnitChange (id : Int) (unit : String) (items : List GroceryItem) : List GroceryItem :=
  items.map fun item => if item.id = id then { item with unit := unit } else item

/-- Embedding of `handleQuantityChange` (identical in both files). -/
def handleQuantityChange (id : Int) (quantity : String) (items : List GroceryItem) :
    List GroceryItem :=
  items.map fun item => if item.id = id then { item with quantity := quantity } else item

/-- Embedding of `getSelectedItems` (identical in both files). -/
def getSelectedItems (items : List GroceryItem) : List GroceryItem :=
  items.filter fun item => item.selected

/-- Embedding of `getSelectedCount` (identical in both files). -/
def getSelectedCount (items : List GroceryItem) : Nat :=
  (items.filter fun item => item.selected).length

/-- The current date as read off the browser clock: `getDate`, `getMonth`
(0-based) and `getFullYear`. -/
structure DateParts where
  day : Nat
  month : Nat
  year : Nat
deriving DecidableEq

/-- The `en-US` short month names produced by
`date.toLocaleString("en-US", [month: "short"])`, indexed by `getMonth()`. -/
def monthShortEnUS : List String :=
  ["Jan", "Feb", "Mar", "Apr", "May", "Jun", "Jul", "Aug", "Sep", "Oct", "Nov", "Dec"]

/-- JavaScript `String.prototype.repeat` for a string and a count. -/
def strRepeat (s : String) (n : Nat) : String :=
  String.join (List.replicate n s)

/-- JavaScript `String.prototype.padStart` with a single-character pad. -/
def padStart (s : String) (targetLen : Nat) (c : Char) : String :=
  String.mk (List.replicate (targetLen - s.length) c) ++ s

/-- Embedding of `formatDate` (identical in both files):
`String(date.getDate()).padStart(2, "0")`, the `en-US` short month, and
`date.getFullYear()`, joined by hyphens. -/
def formatDate (d : DateParts) : String :=
  padStart (toString d.day) 2 '0' ++ "-" ++ monthShortEnUS.getD d.month "" ++ "-"
    ++ toString d.year

/-- Embedding of the `selectedItems.forEach((item, index) => ...)` loop in both
variants of `generateListText`: append one numbered line per entry, the line
body given by `fmt`. -/
def appendNumberedLines (fmt : GroceryItem → String) :
    List GroceryItem → Nat → String → String
  | [], _, text => text
  | item :: rest, index, text =>
      appendNumberedLines fmt rest (index + 1)
        (text ++ toString (index + 1) ++ ") " ++ fmt item ++ "\n")

/-- Transient notice state (the `toast` state of both files). The source field
`show` is a Lean keyword, so it is embedded as `visible`. -/
structure Toast where
  visible : Bool
  message : String
  type : String
deriving DecidableEq

/-- The component state relevant to the submit transition: the entry list,
the preview flag, and the notice. -/
structure AppState where
  items : List GroceryItem
  showPreview : Bool
  toast : Toast
deriving DecidableEq

/-- Embedding of `showToast` (identical in both files); the auto-dismissal
timer is a side effect outside the state transition. -/
def showToast (message ty : String) (s : AppState) : AppState :=
  { s with toast := { visible := true, message := message, type := ty } }

/-- Embedding of `handleSubmit` (identical in both files): warn and stay when
no entry is selected, otherwise show the preview. -/
def handleSubmit (s : AppState) : AppState :=
  if getSelectedCount s.items = 0 then
    showToast "Please select at least one item" "warning" s
  else
    { s with showPreview := true }

namespace AppTsx

/-- Embedding of `initialItems` of `src/src/App.tsx`: one entry per catalog
item with unit `"KG(s)"`, quantity `"1"`, unselected. -/
def initialItems (configData : GroceryConfig) : List GroceryItem :=
  configData.items.map fun item =>
    { id := item.id, name := item.name, unit := "KG(s)", quantity := "1", selected := false }

/-- The line body interpolated at line 100 of `src/src/App.tsx`:
always `quantity unit name`, with no special case for any unit. -/
def itemLine (item : GroceryItem) : String :=
  item.quantity ++ " " ++ item.unit ++ " " ++ item.name

/-- Embedding of `generateListText` of `src/src/App.tsx`. -/
def generateListText (d : DateParts) (config : Option GroceryConfig)
    (items : List GroceryItem) : String :=
  match config with
  | none => ""
  | some cfg =>
    let selectedItems := getSelectedItems items
    let text := "Date: " ++ formatDate d ++ "\n"
    let text := text ++ "Name: " ++ cfg.user.name ++ "\n"
    let text := text ++ "Contact No. - " ++ cfg.user.mobile ++ "\n\n"
    let text := text ++ "Grocery List:\n"
    let text := text ++ strRepeat "=" 40 ++ "\n\n"
    appendNumberedLines itemLine selectedItems 0 text

/-- The name of the file produced by `handleDownload` of `src/src/App.tsx`. -/
def downloadFileName (d : DateParts) : String :=
  "grocery-list-" ++ formatDate d ++ ".txt"

/-- The header block of `generateListText` of `src/src/App.tsx`, as one
definition for stating structure theorems. -/
def headerText (d : DateParts) (cfg : GroceryConfig) : String :=
  "Date: " ++ formatDate d ++ "\n" ++ "Name: " ++ cfg.user.name ++ "\n"
    ++ "Contact No. - " ++ cfg.user.mobile ++ "\n\n" ++ "Grocery List:\n"
    ++ strRepeat "=" 40 ++ "\n\n"

end AppTsx

namespace Part000

/-- Embedding of `initialItems` of `src/unnamed/part_000`: one entry per
catalog item with unit `"Kg(s)"`, quantity `"1"`, unselected. -/
def initialItems (configData : GroceryConfig) : List GroceryItem :=
  configData.items.map fun item =>
    { id := item.id, name := item.name, unit := "Kg(s)", quantity := "1", selected := false }

/-- Embedding of `formatItemDisplay` of `src/unnamed/part_000`: omit the unit
word when the unit is the `"Other"` sentinel. -/
def formatItemDisplay (item : GroceryItem) : String :=
  if item.unit = "Other" then
    item.quantity ++ " " ++ item.name
  else
    item.quantity ++ " " ++ item.unit ++ " " ++ item.name

/-- Embedding of `generateListText` of `src/unnamed/part_000`. -/
def generateListText (d : DateParts) (config : Option GroceryConfig)
    (items : List GroceryItem) : String :=
  match config with
  | none => ""
  | some cfg =>
    let selectedItems := getSelectedItems items
    let text := "📅 Date: " ++ formatDate d ++ "\n"
    let text := text ++ "👤 Name: " ++ cfg.user.name ++ "\n"
    let text := text ++ "📱 Contact: " ++ cfg.user.mobile ++ "\n\n"
    let text := text ++ "🛒 *Grocery List*\n"
    let text := text ++ strRepeat "-" 35 ++ "\n\n"
    let text := appendNumberedLines formatItemDisplay selectedItems 0 text
    let text := text ++ "\n" ++ strRepeat "-" 35 ++ "\n"
    text ++ "Total Items: " ++ toString selectedItems.length

/-- The name of the file produced by `handleDownload` of `src/unnamed/part_000`. -/
def downloadFileName (d : DateParts) : String :=
  "grocery-list-" ++ formatDate d ++ ".txt"

/-- The header block of `generateListText` of `src/unnamed/part_000`, as one
definition for stating structure theorems. -/
def headerText (d : DateParts) (cfg : GroceryConfig) : String :=
  "📅 Date: " ++ formatDate d ++ "\n" ++ "👤 Name: " ++ cfg.user.name ++ "\n"
    ++ "📱 Contact: " ++ cfg.user.mobile ++ "\n\n" ++ "🛒 *Grocery List*\n"
    ++ strRepeat "-" 35 ++ "\n\n"

end Part000

/-- Specification-side list of numbered lines for a list of entries: entry `k`
of `sel` is rendered as the line numbered `i + k + 1`, so with `i = 0` the
numbering is consecutive starting at 1. -/
def numberedLinesFrom (fmt : GroceryItem → String) (i : Nat) (sel : List GroceryItem) :
    List String :=
  (List.enumFrom i sel).map fun p => toString (p.1 + 1) ++ ") " ++ fmt p.2 ++ "\n"

/-- Concatenation of a list of strings, in order. -/
def concatAll : List String → String
  | [] => ""
  | s :: rest => s ++ concatAll rest

/-- Specification-side body of the export: one numbered line per selected
entry, numbered from 1, concatenated in order. -/
def numberedBody (fmt : GroceryItem → String) (sel : List GroceryItem) : String :=
  concatAll (numberedLinesFrom fmt 0 sel)

/-- Sample user, configuration, date and entries for concrete instantiations,
following the worked example of the specification. -/
def exUser : GroceryUser := { name := "A", mobile := "123", shopkeeperMobile := "999" }

/-- Sample configuration with the catalog Milk, Bread, Eggs. -/
def exConfig : GroceryConfig :=
  { items := [{ id := 1, name := "Milk" }, { id := 2, name := "Bread" }, { id := 3, name := "Eggs" }],
    units := ["Kg(s)"], user := exUser }

/-- Sample current date: 9 September 2025 (month index 8). -/
def exDate : DateParts := { day := 9, month := 8, year := 2025 }

/-- Sample selected entry. -/
def exMilk : GroceryItem :=
  { id := 1, name := "Milk", unit := "KG(s)", quantity := "2", selected := true }

/-- Sample entry whose unit is the `"Other"` sentinel. -/
def exEggsOther : GroceryItem :=
  { id := 3, name := "Eggs", unit := "Other", quantity := "2", selected := true }

/-- The imperative numbered-line loop of both `generateListText` variants
appends exactly the specification-side numbered lines of its input. -/
theorem appendNumberedLines_eq (fmt : GroceryItem → String) :
    ∀ (l : List GroceryItem) (i : Nat) (t : String),
      appendNumberedLines fmt l i t = t ++ concatAll (numberedLinesFrom fmt i l)
  | [], i, t => by
      simp [appendNumberedLines, numberedLinesFrom, concatAll]
  | item :: rest, i, t => by
      simp only [appendNumberedLines, appendNumberedLines_eq fmt rest (i + 1),
        numberedLinesFrom, List.enumFrom_cons, List.map_cons, concatAll, String.append_assoc]

/-- C1 (amended): for every date, configuration and entry list, both variants
of `generateListText` produce a header followed by exactly one numbered line
per entry with `selected = true`, in the relative order of the entry list,
numbered consecutively starting at 1; the `part_000` variant additionally ends
with a separator and a trailing `Total Items:` count equal to the number of
selected entries, while the `App.tsx` variant ends after the last numbered
line with no trailing count. -/
theorem generateListText_structure (d : DateParts) (cfg : GroceryConfig)
    (items : List GroceryItem) :
    Part000.generateListText d (some cfg) items =
      Part000.headerText d cfg
        ++ numberedBody Part000.formatItemDisplay (items.filter fun a => a.selected)
        ++ "\n" ++ strRepeat "-" 35 ++ "\n" ++ "Total Items: "
        ++ toString (items.filter fun a => a.selected).length
    ∧ AppTsx.generateListText d (some cfg) items =
      AppTsx.headerText d cfg
        ++ numberedBody AppTsx.itemLine (items.filter fun a => a.selected)
    ∧ (numberedLinesFrom Part000.formatItemDisplay 0 (items.filter fun a => a.selected)).length
        = (items.filter fun a => a.selected).length := by
  refine ⟨?_, ?_, ?_⟩
  · simp [Part000.generateListText, Part000.headerText, getSelectedItems, numberedBody,
      appendNumberedLines_eq, String.append_assoc]
  · simp [AppTsx.generateListText, AppTsx.headerText, getSelectedItems, numberedBody,
      appendNumberedLines_eq, String.append_assoc]
  · simp [numberedLinesFrom]

set_option maxRecDepth 4000 in
/-- C1 counterexample: in the `App.tsx` variant the export of one selected
entry is exactly the literal below, which does not end with the decimal
rendering of the selected count — this variant has no trailing total. -/
theorem appTsx_export_has_no_trailing_total :
    AppTsx.generateListText exDate (some exConfig) [exMilk] =
      "Date: 09-Sep-2025\nName: A\nContact No. - 123\n\nGrocery List:\n========================================\n\n1) 2 KG(s) Milk\n"
    ∧ getSelectedCount [exMilk] = 1
    ∧ ((toString (getSelectedCount [exMilk])).data.isSuffixOf
        (AppTsx.generateListText exDate (some exConfig) [exMilk]).data) = false := by
  refine ⟨by decide, by decide, by decide⟩

/-- C5: toggling selection twice with the same id restores the entry list
exactly — the matching entries return to their original selected value and
every other entry is untouched. -/
theorem handleCheckboxChange_twice (id : Int) (items : List GroceryItem) :
    handleCheckboxChange id (handleCheckboxChange id items) = items := by
  induction items with
  | nil => rfl
  | cons a l ih =>
    simp only [handleCheckboxChange, List.map_cons] at ih ⊢
    by_cases hid : a.id = id
    · subst hid
      simp [Bool.not_not, ih]
    · simp [hid, ih]

/-- C10: with an absent configuration both variants of `generateListText`
return the empty string, whatever the entries and their selection state. -/
theorem generateListText_none_empty (d : DateParts) (items : List GroceryItem) :
    AppTsx.generateListText d none items = "" ∧ Part000.generateListText d none items = "" :=
  ⟨rfl, rfl⟩

/-- Positional content of the specification-side numbered lines: line `k`
carries the number `i + k + 1` and the rendering of entry `k`. -/
theorem numberedLinesFrom_getD (fmt : GroceryItem → String) :
    ∀ (l : List GroceryItem) (i k : Nat), k < l.length →
      (numberedLinesFrom fmt i l).getD k "" =
        toString (i + k + 1) ++ ") " ++ fmt (l.getD k noItem) ++ "\n"
  | [], _, k, h => absurd h (by simp)
  | a :: l, i, 0, _ => by simp [numberedLinesFrom]
  | a :: l, i, k + 1, h => by
      have ih := numberedLinesFrom_getD fmt l (i + 1) k (by simpa using h)
      simp only [numberedLinesFrom, List.enumFrom_cons, List.map_cons,
        List.getD_cons_succ] at ih ⊢
      rw [ih]
      have h2 : i + 1 + k + 1 = i + (k + 1) + 1 := by omega
      rw [h2]

/-- C2 (amended): line `k` (numbered `k + 1`) of the formatted export body is,
in the `part_000` variant, `quantity unit name` when the entry's unit is not
the `"Other"` sentinel and `quantity name` (no unit shown) when it is; in the
`App.tsx` variant the line is always `quantity unit name`, including when the
unit is `"Other"`. -/
theorem exportLine_rendering (items : List GroceryItem) (k : Nat)
    (h : k < (getSelectedItems items).length) :
    (numberedLinesFrom Part000.formatItemDisplay 0 (getSelectedItems items)).getD k "" =
      toString (k + 1) ++ ") " ++
        (if ((getSelectedItems items).getD k noItem).unit = "Other" then
          ((getSelectedItems items).getD k noItem).quantity ++ " "
            ++ ((getSelectedItems items).getD k noItem).name
        else
          ((getSelectedItems items).getD k noItem).quantity ++ " "
            ++ ((getSelectedItems items).getD k noItem).unit ++ " "
            ++ ((getSelectedItems items).getD k noItem).name) ++ "\n"
    ∧ (numberedLinesFrom AppTsx.itemLine 0 (getSelectedItems items)).getD k "" =
      toString (k + 1) ++ ") "
        ++ ((getSelectedItems items).getD k noItem).quantity ++ " "
        ++ ((getSelectedItems items).getD k noItem).unit ++ " "
        ++ ((getSelectedItems items).getD k noItem).name ++ "\n" := by
  constructor
  · rw [numberedLinesFrom_getD Part000.formatItemDisplay (getSelectedItems items) 0 k h]
    by_cases hu : ((getSelectedItems items).getD k noItem).unit = "Other" <;>
      simp [Part000.formatItemDisplay, hu, String.append_assoc]
  · rw [numberedLinesFrom_getD AppTsx.itemLine (getSelectedItems items) 0 k h]
    simp [AppTsx.itemLine, String.append_assoc]

/-- Witness for `exportLine_rendering` at the entry list `[exEggsOther]` and
line index 0. -/
theorem exportLine_rendering_witness :
    0 < (getSelectedItems [exEggsOther]).length
    ∧ ((numberedLinesFrom Part000.formatItemDisplay 0 (getSelectedItems [exEggsOther])).getD 0 "" =
      toString (0 + 1) ++ ") " ++
        (if ((getSelectedItems [exEggsOther]).getD 0 noItem).unit = "Other" then
          ((getSelectedItems [exEggsOther]).getD 0 noItem).quantity ++ " "
            ++ ((getSelectedItems [exEggsOther]).getD 0 noItem).name
        else
          ((getSelectedItems [exEggsOther]).getD 0 noItem).quantity ++ " "
            ++ ((getSelectedItems [exEggsOther]).getD 0 noItem).unit ++ " "
            ++ ((getSelectedItems [exEggsOther]).getD 0 noItem).name) ++ "\n"
    ∧ (numberedLinesFrom AppTsx.itemLine 0 (getSelectedItems [exEggsOther])).getD 0 "" =
      toString (0 + 1) ++ ") "
        ++ ((getSelectedItems [exEggsOther]).getD 0 noItem).quantity ++ " "
        ++ ((getSelectedItems [exEggsOther]).getD 0 noItem).unit ++ " "
        ++ ((getSelectedItems [exEggsOther]).getD 0 noItem).name ++ "\n") :=
  ⟨by decide, exportLine_rendering [exEggsOther] 0 (by decide)⟩

set_option maxRecDepth 4000 in
/-- C2 counterexample: in the `App.tsx` variant the line rendered for a
selected entry whose unit is the `"Other"` sentinel still shows the unit word:
it is `2 Other Eggs`, not `2 Eggs` as in the `part_000` variant. -/
theorem appTsx_other_unit_is_shown :
    AppTsx.itemLine exEggsOther = "2 Other Eggs"
    ∧ AppTsx.itemLine exEggsOther ≠ "2 Eggs"
    ∧ Part000.formatItemDisplay exEggsOther = "2 Eggs" := by
  refine ⟨by decide, by decide, by decide⟩

/-- C3: from the editing view, submitting with zero selected entries keeps the
editing view and the entry list and emits the warning notice; with at least
one selected entry it transitions to the preview, the entry list unchanged. -/
theorem handleSubmit_guarded (s : AppState) (h : s.showPreview = false) :
    if getSelectedCount s.items = 0 then
      (handleSubmit s).showPreview = false
        ∧ (handleSubmit s).items = s.items
        ∧ (handleSubmit s).toast =
            { visible := true, message := "Please select at least one item", type := "warning" }
    else
      (handleSubmit s).showPreview = true ∧ (handleSubmit s).items = s.items := by
  by_cases hc : getSelectedCount s.items = 0 <;>
    simp [handleSubmit, showToast, hc, h]

/-- Editing-mode state with an empty entry list, for concrete instantiation. -/
def emptyEditingState : AppState :=
  { items := [], showPreview := false,
    toast := { visible := false, message := "", type := "" } }

/-- Witness for `handleSubmit_guarded` at the empty editing state. -/
theorem handleSubmit_guarded_witness :
    if getSelectedCount emptyEditingState.items = 0 then
      (handleSubmit emptyEditingState).showPreview = false
        ∧ (handleSubmit emptyEditingState).items = emptyEditingState.items
        ∧ (handleSubmit emptyEditingState).toast =
            { visible := true, message := "Please select at least one item", type := "warning" }
    else
      (handleSubmit emptyEditingState).showPreview = true
        ∧ (handleSubmit emptyEditingState).items = emptyEditingState.items :=
  handleSubmit_guarded emptyEditingState rfl

/-- C4: successful initialization produces exactly one entry per catalog item,
in catalog order, each unselected, with quantity `"1"` and the variant's
default unit (`"KG(s)"` in `App.tsx`, `"Kg(s)"` in `part_000`). -/
theorem initialItems_spec (cfg : GroceryConfig) (k : Nat) (h : k < cfg.items.length) :
    (AppTsx.initialItems cfg).length = cfg.items.length
    ∧ (Part000.initialItems cfg).length = cfg.items.length
    ∧ (AppTsx.initialItems cfg).getD k noItem =
        { id := (cfg.items.getD k noCfgItem).id, name := (cfg.items.getD k noCfgItem).name,
          unit := "KG(s)", quantity := "1", selected := false }
    ∧ (Part000.initialItems cfg).getD k noItem =
        { id := (cfg.items.getD k noCfgItem).id, name := (cfg.items.getD k noCfgItem).name,
          unit := "Kg(s)", quantity := "1", selected := false } := by
  refine ⟨by simp [AppTsx.initialItems], by simp [Part000.initialItems], ?_, ?_⟩
  · simp [AppTsx.initialItems, List.getD_eq_getElem?_getD, List.getElem?_map,
      List.getElem?_eq_getElem h]
  · simp [Part000.initialItems, List.getD_eq_getElem?_getD, List.getElem?_map,
      List.getElem?_eq_getElem h]

/-- Witness for `initialItems_spec` at the sample configuration and index 0. -/
theorem initialItems_spec_witness :
    0 < exConfig.items.length
    ∧ ((AppTsx.initialItems exConfig).length = exConfig.items.length
    ∧ (Part000.initialItems exConfig).length = exConfig.items.length
    ∧ (AppTsx.initialItems exConfig).getD 0 noItem =
        { id := (exConfig.items.getD 0 noCfgItem).id,
          name := (exConfig.items.getD 0 noCfgItem).name,
          unit := "KG(s)", quantity := "1", selected := false }
    ∧ (Part000.initialItems exConfig).getD 0 noItem =
        { id := (exConfig.items.getD 0 noCfgItem).id,
          name := (exConfig.items.getD 0 noCfgItem).name,
          unit := "Kg(s)", quantity := "1", selected := false }) :=
  ⟨by decide, initialItems_spec exConfig 0 (by decide)⟩

/-- Generic id-keyed update: the common shape of the three entry handlers. -/
def updateById (id : Int) (g : GroceryItem → GroceryItem) (items : List GroceryItem) :
    List GroceryItem :=
  items.map fun item => if item.id = id then g item else item

theorem handleCheckboxChange_eq_updateById (id : Int) (items : List GroceryItem) :
    handleCheckboxChange id items =
      updateById id (fun a => { a with selected := !a.selected }) items := rfl

theorem handleUnitChange_eq_updateById (id : Int) (unit : String) (items : List GroceryItem) :
    handleUnitChange id unit items = updateById id (fun a => { a with unit := unit }) items := rfl

theorem handleQuantityChange_eq_updateById (id : Int) (quantity : String)
    (items : List GroceryItem) :
    handleQuantityChange id quantity items =
      updateById id (fun a => { a with quantity := quantity }) items := rfl

theorem updateById_cons (id : Int) (g : GroceryItem → GroceryItem) (a : GroceryItem)
    (l : List GroceryItem) :
    updateById id g (a :: l) = (if a.id = id then g a else a) :: updateById id g l := rfl

/-- An id-keyed update whose id occurs nowhere in the list is the identity. -/
theorem updateById_of_no_match (id : Int) (g : GroceryItem → GroceryItem) :
    ∀ (items : List GroceryItem), (∀ e ∈ items, e.id ≠ id) → updateById id g items = items
  | [], _ => rfl
  | a :: l, h => by
      have ha : a.id ≠ id := h a (List.mem_cons_self a l)
      rw [updateById_cons, if_neg ha,
        updateById_of_no_match id g l fun e he => h e (List.mem_cons_of_mem a he)]

/-- Number of positions at which two entry lists differ. -/
def diffCount (l₁ l₂ : List GroceryItem) : Nat :=
  ((l₁.zip l₂).filter fun p => p.1 != p.2).length

theorem diffCount_cons (a b : GroceryItem) (l₁ l₂ : List GroceryItem) :
    diffCount (a :: l₁) (b :: l₂) = (if a = b then 0 else 1) + diffCount l₁ l₂ := by
  by_cases hab : a = b
  · simp [diffCount, List.filter_cons, hab]
  · simp [diffCount, List.filter_cons, hab, Nat.add_comm]

theorem diffCount_self (l : List GroceryItem) : diffCount l l = 0 := by
  induction l with
  | nil => rfl
  | cons a t ih => rw [diffCount_cons, if_pos rfl, ih]

/-- With pairwise-distinct ids, an id-keyed update changes at most one
position. -/
theorem diffCount_update_le_one (id : Int) (g : GroceryItem → GroceryItem) :
    ∀ (items : List GroceryItem), ((items.map fun e => e.id).Nodup) →
      diffCount items (updateById id g items) ≤ 1
  | [], _ => by simp [diffCount, updateById]
  | a :: l, h => by
      simp only [List.map_cons, List.nodup_cons, List.mem_map, not_exists] at h
      obtain ⟨hna, hnd⟩ := h
      rw [updateById_cons, diffCount_cons]
      by_cases ha : a.id = id
      · have hl : updateById id g l = l := by
          refine updateById_of_no_match id g l fun e he hne => ?_
          exact hna e ⟨he, by rw [hne, ha]⟩
        rw [hl, diffCount_self, if_pos ha]
        by_cases hga : a = g a
        · rw [if_pos hga]; omega
        · rw [if_neg hga]
      · rw [if_neg ha, if_pos rfl]
        have := diffCount_update_le_one id g l (by simpa using hnd)
        omega

/-- Any pair changed by an id-keyed update has the matching id (no hypothesis
on the ids needed). -/
theorem updateById_mismatch_id (id : Int) (g : GroceryItem → GroceryItem) :
    ∀ (items : List GroceryItem) (p : GroceryItem × GroceryItem),
      p ∈ items.zip (updateById id g items) → p.1 ≠ p.2 → p.1.id = id
  | [], p, hp, _ => absurd hp (by simp)
  | a :: l, p, hp, hne => by
      rw [updateById_cons, List.zip_cons_cons] at hp
      rcases List.mem_cons.1 hp with heq | htail
      · by_cases ha : a.id = id
        · rw [heq]; exact ha
        · rw [if_neg ha] at heq
          rw [heq] at hne
          exact absurd rfl hne
      · exact updateById_mismatch_id id g l p htail hne

/-- C6 (amended): when the entry ids are pairwise distinct — as holds for any
list initialized from a catalog with distinct ids — a single call to the
toggle-selection, change-unit or change-quantity handler changes at most one
position of the list, and any changed entry is one whose id matches the
argument. With duplicate ids a single call can mutate several entries. -/
theorem singleUpdate_frame (items : List GroceryItem) (id : Int) (u q : String)
    (h : (items.map fun e => e.id).Nodup) :
    diffCount items (handleCheckboxChange id items) ≤ 1
    ∧ diffCount items (handleUnitChange id u items) ≤ 1
    ∧ diffCount items (handleQuantityChange id q items) ≤ 1
    ∧ (∀ p ∈ items.zip (handleCheckboxChange id items), p.1 ≠ p.2 → p.1.id = id)
    ∧ (∀ p ∈ items.zip (handleUnitChange id u items), p.1 ≠ p.2 → p.1.id = id)
    ∧ (∀ p ∈ items.zip (handleQuantityChange id q items), p.1 ≠ p.2 → p.1.id = id) := by
  rw [handleCheckboxChange_eq_updateById, handleUnitChange_eq_updateById,
    handleQuantityChange_eq_updateById]
  exact ⟨diffCount_update_le_one id _ items h, diffCount_update_le_one id _ items h,
    diffCount_update_le_one id _ items h,
    fun p hp => updateById_mismatch_id id _ items p hp,
    fun p hp => updateById_mismatch_id id _ items p hp,
    fun p hp => updateById_mismatch_id id _ items p hp⟩

/-- Witness for `singleUpdate_frame` at a two-entry list with distinct ids. -/
theorem singleUpdate_frame_witness :
    diffCount [exMilk, exEggsOther] (handleCheckboxChange 1 [exMilk, exEggsOther]) ≤ 1
    ∧ diffCount [exMilk, exEggsOther] (handleUnitChange 1 "Pc(s)" [exMilk, exEggsOther]) ≤ 1
    ∧ diffCount [exMilk, exEggsOther] (handleQuantityChange 1 "3" [exMilk, exEggsOther]) ≤ 1
    ∧ (∀ p ∈ [exMilk, exEggsOther].zip (handleCheckboxChange 1 [exMilk, exEggsOther]),
        p.1 ≠ p.2 → p.1.id = 1)
    ∧ (∀ p ∈ [exMilk, exEggsOther].zip (handleUnitChange 1 "Pc(s)" [exMilk, exEggsOther]),
        p.1 ≠ p.2 → p.1.id = 1)
    ∧ (∀ p ∈ [exMilk, exEggsOther].zip (handleQuantityChange 1 "3" [exMilk, exEggsOther]),
        p.1 ≠ p.2 → p.1.id = 1) :=
  singleUpdate_frame [exMilk, exEggsOther] 1 "Pc(s)" "3" (by decide)

/-- Duplicate-id entries used to refute the unconditional frame claim. -/
def dupMilk : GroceryItem :=
  { id := 1, name := "Milk", unit := "KG(s)", quantity := "1", selected := false }

/-- Second entry sharing id 1 with `dupMilk`. -/
def dupEggs : GroceryItem :=
  { id := 1, name := "Eggs", unit := "KG(s)", quantity := "1", selected := false }

/-- C6 counterexample: on a list with two entries of the same id, one
toggle-selection call changes both of them — two positions differ. -/
theorem toggle_mutates_two_on_duplicate_ids :
    diffCount [dupMilk, dupEggs] (handleCheckboxChange 1 [dupMilk, dupEggs]) = 2 := by decide

/-- C7: changing an entry's unit to the `"Other"` sentinel and then to `u`
leaves every entry's quantity as it was, sets the matching entries' unit to
`u` while touching nothing else of them, and leaves non-matching entries
exactly unchanged; in particular a matching entry whose unit was `u` is fully
restored. -/
theorem unitChange_other_roundtrip (items : List GroceryItem) (id : Int) (u : String)
    (k : Nat) (h : k < items.length) :
    ((handleUnitChange id u (handleUnitChange id "Other" items)).getD k noItem).quantity
        = (items.getD k noItem).quantity
    ∧ ((items.getD k noItem).id = id →
        (handleUnitChange id u (handleUnitChange id "Other" items)).getD k noItem
          = { items.getD k noItem with unit := u })
    ∧ ((items.getD k noItem).id ≠ id →
        (handleUnitChange id u (handleUnitChange id "Other" items)).getD k noItem
          = items.getD k noItem) := by
  have hmap : (handleUnitChange id u (handleUnitChange id "Other" items)).getD k noItem
      = if (items.getD k noItem).id = id then { items.getD k noItem with unit := u }
        else items.getD k noItem := by
    have hstep : (handleUnitChange id u (handleUnitChange id "Other" items)).getD k noItem
        = (fun a => if a.id = id then { a with unit := u } else a)
            ((fun a => if a.id = id then { a with unit := "Other" } else a)
              (items.getD k noItem)) := by
      simp [handleUnitChange, List.getD_eq_getElem?_getD, List.getElem?_map,
        List.getElem?_eq_getElem h]
    rw [hstep]
    generalize items.getD k noItem = e
    by_cases ha : e.id = id
    · simp [ha]
    · simp [ha]
  rw [hmap]
  by_cases ha : (items.getD k noItem).id = id
  · rw [if_pos ha]
    exact ⟨rfl, fun _ => rfl, fun hne => absurd ha hne⟩
  · rw [if_neg ha]
    exact ⟨rfl, fun heq => absurd heq ha, fun _ => rfl⟩

/-- Witness for `unitChange_other_roundtrip` at a one-entry list. -/
theorem unitChange_other_roundtrip_witness :
    0 < ([exMilk] : List GroceryItem).length
    ∧ (((handleUnitChange 1 "KG(s)" (handleUnitChange 1 "Other" [exMilk])).getD 0 noItem).quantity
        = (([exMilk] : List GroceryItem).getD 0 noItem).quantity
    ∧ ((([exMilk] : List GroceryItem).getD 0 noItem).id = 1 →
        (handleUnitChange 1 "KG(s)" (handleUnitChange 1 "Other" [exMilk])).getD 0 noItem
          = { ([exMilk] : List GroceryItem).getD 0 noItem with unit := "KG(s)" })
    ∧ ((([exMilk] : List GroceryItem).getD 0 noItem).id ≠ 1 →
        (handleUnitChange 1 "KG(s)" (handleUnitChange 1 "Other" [exMilk])).getD 0 noItem
          = ([exMilk] : List GroceryItem).getD 0 noItem)) :=
  ⟨by decide, unitChange_other_roundtrip [exMilk] 1 "KG(s)" 0 (by decide)⟩

/-- C9: calling any of the three entry handlers with an id that occurs in no
entry returns the input list unchanged — a total no-op. -/
theorem absent_id_noop (items : List GroceryItem) (id : Int) (u q : String)
    (h : ∀ e ∈ items, e.id ≠ id) :
    handleCheckboxChange id items = items
    ∧ handleUnitChange id u items = items
    ∧ handleQuantityChange id q items = items := by
  rw [handleCheckboxChange_eq_updateById, handleUnitChange_eq_updateById,
    handleQuantityChange_eq_updateById]
  exact ⟨updateById_of_no_match id _ items h, updateById_of_no_match id _ items h,
    updateById_of_no_match id _ items h⟩

/-- Witness for `absent_id_noop` with id 5, absent from the one-entry list. -/
theorem absent_id_noop_witness :
    handleCheckboxChange 5 [exMilk] = [exMilk]
    ∧ handleUnitChange 5 "Pc(s)" [exMilk] = [exMilk]
    ∧ handleQuantityChange 5 "4" [exMilk] = [exMilk] :=
  absent_id_noop [exMilk] 5 "Pc(s)" "4" (by decide)

/-- Exact digit count of `Nat.toDigitsCore`: with enough fuel it prepends
exactly `log b n + 1` digit characters. -/
theorem toDigitsCore_exact_length (b : Nat) (hb : 1 < b) :
    ∀ (fuel n : Nat) (ds : List Char), 0 < fuel → n < b ^ fuel →
      (Nat.toDigitsCore b fuel n ds).length = Nat.log b n + 1 + ds.length := by
  intro fuel
  induction fuel with
  | zero => intro n ds hf _; exact absurd hf (Nat.lt_irrefl 0)
  | succ f ih =>
    intro n ds _ hlt
    simp only [Nat.toDigitsCore]
    by_cases hdiv : n / b = 0
    · have hnb : n < b := by
        by_contra hge
        push_neg at hge
        have : 0 < n / b := Nat.div_pos hge (by omega)
        omega
      have hlog : Nat.log b n = 0 := Nat.log_eq_zero_iff.2 (Or.inl hnb)
      rw [if_pos hdiv, List.length_cons, hlog]
      omega
    · rw [if_neg hdiv]
      have hb0 : 0 < b := by omega
      have hbn : b ≤ n := by
        by_contra hlt2
        push_neg at hlt2
        exact hdiv (Nat.div_eq_of_lt hlt2)
      have hf : 0 < f := by
        by_contra hf0
        push_neg at hf0
        have hfz : f = 0 := by omega
        subst hfz
        rw [pow_one] at hlt
        omega
      have hlt2 : n / b < b ^ f := by
        rw [Nat.div_lt_iff_lt_mul hb0]
        rw [Nat.pow_succ] at hlt
        exact hlt
      rw [ih (n / b) (Nat.digitChar (n % b) :: ds) hf hlt2]
      have hlogdiv : Nat.log b (n / b) = Nat.log b n - 1 := Nat.log_div_base b n
      have hlogpos : 0 < Nat.log b n := Nat.log_pos hb hbn
      rw [List.length_cons, hlogdiv]
      omega

/-- Exact length of the decimal rendering of a natural number between two
powers of ten. -/
theorem repr_length_exact (n e : Nat) (h1 : 10 ^ e ≤ n) (h2 : n < 10 ^ (e + 1)) :
    (Nat.repr n).length = e + 1 := by
  have hlt : n < 10 ^ (n + 1) :=
    lt_of_lt_of_le (Nat.lt_pow_self (by omega) n)
      (Nat.pow_le_pow_right (by omega) (Nat.le_succ n))
  have hlog : Nat.log 10 n = e := Nat.log_eq_of_pow_le_of_lt_pow h1 h2
  have hcore := toDigitsCore_exact_length 10 (by omega) (n + 1) n [] (Nat.succ_pos n) hlt
  have hrepr : (Nat.repr n).length = (Nat.toDigitsCore 10 (n + 1) n []).length := rfl
  rw [hrepr, hcore, hlog]
  simp

/-- Decimal renderings of day-of-month values take at most two characters. -/
theorem repr_day_le_two (day : Nat) (h : day ≤ 31) : (Nat.repr day).length ≤ 2 :=
  Nat.repr_length day 2 (by omega) (by norm_num; omega)

/-- Length of the JavaScript-style left pad. -/
theorem padStart_length (s : String) (n : Nat) (c : Char) :
    (padStart s n c).length = (n - s.length) + s.length := by
  rw [padStart, String.length_append]
  congr 1
  show (List.replicate (n - s.length) c).length = n - s.length
  exact List.length_replicate _ _

/-- Every month index below 12 maps to one of the twelve `en-US`
abbreviations, each three characters long. -/
theorem monthShortEnUS_spec (m : Nat) (h : m < 12) :
    (monthShortEnUS.getD m "").length = 3 ∧ monthShortEnUS.getD m "" ∈ monthShortEnUS := by
  interval_cases m <;> exact ⟨by decide, by decide⟩

/-- C8: for every realistic current date, `formatDate` is a two-character
zero-padded day, a hyphen, a three-letter `en-US` month abbreviation, a
hyphen, and a four-digit year — 11 characters in total — and this string is
the date part of the download file name `grocery-list-...txt` in both
variants. -/
theorem formatDate_shape (d : DateParts) (h1 : 1 ≤ d.day) (h2 : d.day ≤ 31)
    (h3 : d.month < 12) (h4 : 1000 ≤ d.year) (h5 : d.year ≤ 9999) :
    (padStart (toString d.day) 2 '0').length = 2
    ∧ (monthShortEnUS.getD d.month "").length = 3
    ∧ monthShortEnUS.getD d.month "" ∈ monthShortEnUS
    ∧ (toString d.year).length = 4
    ∧ formatDate d = padStart (toString d.day) 2 '0' ++ "-"
        ++ monthShortEnUS.getD d.month "" ++ "-" ++ toString d.year
    ∧ (formatDate d).length = 11
    ∧ AppTsx.downloadFileName d = "grocery-list-" ++ formatDate d ++ ".txt"
    ∧ Part000.downloadFileName d = "grocery-list-" ++ formatDate d ++ ".txt" := by
  have hpad : (padStart (toString d.day) 2 '0').length = 2 := by
    have hday : (toString d.day).length ≤ 2 := repr_day_le_two d.day h2
    rw [padStart_length]
    omega
  have hmon := monthShortEnUS_spec d.month h3
  have hyear : (toString d.year).length = 4 :=
    repr_length_exact d.year 3 (by norm_num; omega) (by norm_num; omega)
  refine ⟨hpad, hmon.1, hmon.2, hyear, rfl, ?_, rfl, rfl⟩
  show (padStart (toString d.day) 2 '0' ++ "-" ++ monthShortEnUS.getD d.month "" ++ "-"
      ++ toString d.year).length = 11
  rw [String.length_append, String.length_append, String.length_append, String.length_append,
    hpad, hmon.1, hyear]
  decide

/-- Witness for `formatDate_shape` at 9 September 2025. -/
theorem formatDate_shape_witness :
    (1 ≤ exDate.day ∧ exDate.day ≤ 31 ∧ exDate.month < 12
      ∧ 1000 ≤ exDate.year ∧ exDate.year ≤ 9999)
    ∧ ((padStart (toString exDate.day) 2 '0').length = 2
    ∧ (monthShortEnUS.getD exDate.month "").length = 3
    ∧ monthShortEnUS.getD exDate.month "" ∈ monthShortEnUS
    ∧ (toString exDate.year).length = 4
    ∧ formatDate exDate = padStart (toString exDate.day) 2 '0' ++ "-"
        ++ monthShortEnUS.getD exDate.month "" ++ "-" ++ toString exDate.year
    ∧ (formatDate exDate).length = 11
    ∧ AppTsx.downloadFileName exDate = "grocery-list-" ++ formatDate exDate ++ ".txt"
    ∧ Part000.downloadFileName exDate = "grocery-list-" ++ formatDate exDate ++ ".txt") :=
  ⟨⟨by decide, by decide, by decide, by decide, by decide⟩,
    formatDate_shape exDate (by decide) (by decide) (by decide) (by decide) (by decide)⟩
